import Mathlib

/-!
# Verification of the meles matrix-free operator pipeline

Shallow embedding of the meles crate (a matrix-free finite-element operator
bridge between PETSc and libCEED) and proofs about its problem catalog,
operator shell entry points, operator construction, boundary-index involution,
and Kershaw mesh transformation.

Sources embedded:
* `src/lib.rs` — the `Error` type.
* `src/ceed_bps.rs` — `CeedBP`, its `FromStr`/`Display` impls, `BPData`,
  `bp_data`, and the construction sequence of `mat_shell_context`.
* `src/petsc_ops.rs` — `apply_local_ceed_op` and `compute_diagonal_ceed`,
  both as step traces with a small-step semantics and as an error-outcome
  model.
* `src/dm.rs` / `petsc/petsc-ceed-utils/src/lib.rs` — `kershaw_transformation`
  and `involute`.

Numeric values carried through PETSc vectors (`f64` in the source) are
modelled as rationals.  For the Kershaw transformation, where the claim is
sensitive to rounding, two models are given: the exact-arithmetic
idealization (each operation as the exact rational operation) and the IEEE
binary64 semantics (each operation followed by round-to-nearest-even),
so the idealized identity can be compared with the rounding behaviour of
the `f64` program.
-/

namespace Meles

/-- `Error` from `src/lib.rs`: a message-carrying error value. -/
structure Error where
  message : String
deriving DecidableEq, Repr

/-- `QuadMode` of libceed as consumed by `bp_data` in `src/ceed_bps.rs`. -/
inductive QuadMode
  | gauss
  | gaussLobatto
deriving DecidableEq, Repr

/-- The `CeedBP` enum from `src/ceed_bps.rs` (discriminants 1..6). -/
inductive CeedBP
  | BP1
  | BP2
  | BP3
  | BP4
  | BP5
  | BP6
deriving DecidableEq, Repr

/-- The Rust discriminant of each `CeedBP` variant (`BP1 = 1`, ..., `BP6 = 6`),
used by the `Display` impl via `*self as usize`. -/
def CeedBP.discriminant : CeedBP → Nat
  | .BP1 => 1
  | .BP2 => 2
  | .BP3 => 3
  | .BP4 => 4
  | .BP5 => 5
  | .BP6 => 6

/-- The `Display` impl for `CeedBP` in `src/ceed_bps.rs`: it formats the
variant as the string `bp` followed by the discriminant. -/
def CeedBP.display (bp : CeedBP) : String :=
  "bp" ++ Nat.repr bp.discriminant

/-- The `FromStr` impl for `CeedBP` in `src/ceed_bps.rs`: an exact string
match on the six known ids; anything else is the parse error. -/
def CeedBP.from_str (s : String) : Except Error CeedBP :=
  if s = "bp1" then .ok .BP1
  else if s = "bp2" then .ok .BP2
  else if s = "bp3" then .ok .BP3
  else if s = "bp4" then .ok .BP4
  else if s = "bp5" then .ok .BP5
  else if s = "bp6" then .ok .BP6
  else .error ⟨"failed to parse problem option"⟩

/-- `BPData` from `src/ceed_bps.rs`: the catalog entry for one benchmark
problem. -/
structure BPData where
  num_components : Nat
  q_data_size : Nat
  setup_name : String
  apply_name : String
  input_name : String
  output_name : String
  q_mode : QuadMode
  set_boundary_conditions : Bool
deriving DecidableEq, Repr

/-- The match arms of `bp_data` in `src/ceed_bps.rs`.  In the source every
arm returns `Ok(BPData { ... })`; the payloads are collected here and the
`Result` wrapper is `bp_data` below. -/
def bp_data_core : CeedBP → BPData
  | .BP1 =>
    { num_components := 1
      q_data_size := 1
      setup_name := "Mass3DBuild"
      apply_name := "MassApply"
      input_name := "u"
      output_name := "v"
      q_mode := .gauss
      set_boundary_conditions := false }
  | .BP2 =>
    { num_components := 3
      q_data_size := 1
      setup_name := "Mass3DBuild"
      apply_name := "Vector3MassApply"
      input_name := "u"
      output_name := "v"
      q_mode := .gauss
      set_boundary_conditions := false }
  | .BP3 =>
    { num_components := 1
      q_data_size := 6
      setup_name := "Poisson3DBuild"
      apply_name := "Poisson3DApply"
      input_name := "du"
      output_name := "dv"
      q_mode := .gauss
      set_boundary_conditions := true }
  | .BP4 =>
    { num_components := 3
      q_data_size := 6
      setup_name := "Poisson3DBuild"
      apply_name := "Vector3Poisson3DApply"
      input_name := "du"
      output_name := "dv"
      q_mode := .gauss
      set_boundary_conditions := true }
  | .BP5 =>
    { num_components := 1
      q_data_size := 6
      setup_name := "Poisson3DBuild"
      apply_name := "Poisson3DApply"
      input_name := "du"
      output_name := "dv"
      q_mode := .gaussLobatto
      set_boundary_conditions := true }
  | .BP6 =>
    { num_components := 3
      q_data_size := 6
      setup_name := "Poisson3DBuild"
      apply_name := "Vector3Poisson3DApply"
      input_name := "du"
      output_name := "dv"
      q_mode := .gaussLobatto
      set_boundary_conditions := true }

/-- `bp_data` from `src/ceed_bps.rs`: the catalog lookup, returning
`crate::Result<BPData>`; every arm of the source match succeeds. -/
def bp_data (bp : CeedBP) : Except Error BPData :=
  .ok (bp_data_core bp)

/-- Catalog table as documented by the spec: field components per problem
(scalar problems 1, 3-vector problems 3).  Used only to compare `bp_data`
against the spec's documented table. -/
def spec_num_components : CeedBP → Nat
  | .BP1 => 1
  | .BP2 => 3
  | .BP3 => 1
  | .BP4 => 3
  | .BP5 => 1
  | .BP6 => 3

/-- Catalog table as documented by the spec: quadrature-data size per
problem (mass problems 1, Poisson problems 6). -/
def spec_q_data_size : CeedBP → Nat
  | .BP1 => 1
  | .BP2 => 1
  | .BP3 => 6
  | .BP4 => 6
  | .BP5 => 6
  | .BP6 => 6

/-- Catalog table as documented by the spec: quadrature point family per
problem (Gauss everywhere except BP5/BP6 at Gauss-Lobatto). -/
def spec_q_mode : CeedBP → QuadMode
  | .BP1 => .gauss
  | .BP2 => .gauss
  | .BP3 => .gauss
  | .BP4 => .gauss
  | .BP5 => .gaussLobatto
  | .BP6 => .gaussLobatto

/-- Catalog table as documented by the spec: boundary conditions are
enforced exactly for the four Poisson problems BP3..BP6. -/
def spec_enforce_boundary : CeedBP → Bool
  | .BP1 => false
  | .BP2 => false
  | .BP3 => true
  | .BP4 => true
  | .BP5 => true
  | .BP6 => true

/-- `involute` from `petsc/petsc-ceed-utils/src/lib.rs`: resolve a
negative-encoded essential-boundary index `-(i+1)` to its raw index.
`PetscInt` arithmetic here never overflows (for `i < 0`, `-(i+1)` lies in
`[0, -(min+1)]`), so the integer model is exact. -/
def involute (i : ℤ) : ℤ :=
  if 0 ≤ i then i else -(i + 1)

/-! ## Operator shell entry points (`src/petsc_ops.rs`)

`apply_local_ceed_op` and `compute_diagonal_ceed` are sequences of calls into
PETSc (scatter, zero, gather) and libCEED (operator apply, diagonal
assembly).  Each is embedded as the list of abstract steps it performs, in
source order, together with a small-step semantics over an abstract vector
store, so that the scatter/gather modes have meaning (insert overwrites the
destination, add accumulates into it). -/

/-- The vectors touched by the shell entry points: the global input `x`, the
global output `y`, the global diagonal `d`, and the context's local scratch
vectors `x_loc` and `y_loc` (each with its wrapped libCEED view). -/
inductive VecId
  | xGlobal
  | yGlobal
  | dGlobal
  | xLoc
  | yLoc
deriving DecidableEq, Repr

/-- PETSc `InsertMode` as used by the shell: `INSERT_VALUES` overwrites,
`ADD_VALUES` accumulates. -/
inductive PetscInsertMode
  | insert_values
  | add_values
deriving DecidableEq, Repr

/-- One step performed by a shell entry point. -/
inductive OpStep
  | global_to_local (src dst : VecId) (mode : PetscInsertMode)
  | op_apply (input output : VecId)
  | assemble_diagonal (target : VecId)
  | zero_entries (v : VecId)
  | local_to_global (src dst : VecId) (mode : PetscInsertMode)
deriving DecidableEq, Repr

/-- The step sequence of `apply_local_ceed_op` in `src/petsc_ops.rs`:
global-to-local scatter of `x` into `x_loc` with `INSERT_VALUES`, libCEED
operator apply from `x_loc` to `y_loc` (through the wrapped views), zeroing
of the global output `y`, and local-to-global gather of `y_loc` into `y`
with `ADD_VALUES`. -/
def apply_local_ceed_op_trace : List OpStep :=
  [ .global_to_local .xGlobal .xLoc .insert_values,
    .op_apply .xLoc .yLoc,
    .zero_entries .yGlobal,
    .local_to_global .yLoc .yGlobal .add_values ]

/-- The step sequence of `compute_diagonal_ceed` in `src/petsc_ops.rs`:
libCEED `linear_assemble_diagonal` into the wrapped view of `x_loc`,
zeroing of the global diagonal `d`, and local-to-global gather of `x_loc`
into `d` with `ADD_VALUES`.  There is no global-to-local scatter: the entry
point takes no global input vector. -/
def compute_diagonal_ceed_trace : List OpStep :=
  [ .assemble_diagonal .xLoc,
    .zero_entries .dGlobal,
    .local_to_global .xLoc .dGlobal .add_values ]

/-- The get-diagonal step sequence as the claim describes it: the `apply`
sequence with `assemble_diagonal` substituted for the operator apply, the
global output renamed to `d`, and `x_loc` as the local carrier.  Written
from the spec's words, to be compared with `compute_diagonal_ceed_trace`. -/
def claimed_get_diagonal_trace : List OpStep :=
  [ .global_to_local .xGlobal .xLoc .insert_values,
    .assemble_diagonal .xLoc,
    .zero_entries .dGlobal,
    .local_to_global .xLoc .dGlobal .add_values ]

/-- Whether a step is a global-to-local scatter. -/
def is_global_to_local : OpStep → Bool
  | .global_to_local _ _ _ => true
  | _ => false

/-- `true` unless the step is a global-to-local scatter in a mode other than
`INSERT_VALUES`. -/
def scatter_mode_is_insert : OpStep → Bool
  | .global_to_local _ _ .insert_values => true
  | .global_to_local _ _ .add_values => false
  | _ => true

/-- `true` unless the step is a local-to-global gather in a mode other than
`ADD_VALUES`. -/
def gather_mode_is_add : OpStep → Bool
  | .local_to_global _ _ .add_values => true
  | .local_to_global _ _ .insert_values => false
  | _ => true

/-- A process-local or global vector value, indexed pointwise. -/
def LVec : Type := Nat → ℚ

/-- The contents of every named vector. -/
def Store : Type := VecId → LVec

/-- Replace one vector of the store. -/
def update_store (s : Store) (v : VecId) (f : LVec) : Store :=
  fun w => if w = v then f else s w

/-- The external collaborators a shell call drives: the DM's
global-to-local and local-to-global maps and the libCEED operator's apply
and assembled diagonal.  All are abstract parameters of the semantics. -/
structure MeshOps where
  g2l : LVec → LVec
  l2g : LVec → LVec
  apply_op : LVec → LVec
  diag : LVec

/-- Small-step semantics of one shell step: insert mode overwrites the
destination, add mode accumulates into it; zeroing writes the zero
vector; diagonal assembly writes the operator's diagonal into its target. -/
def op_step_sem (m : MeshOps) (s : Store) : OpStep → Store
  | .global_to_local src dst .insert_values => update_store s dst (m.g2l (s src))
  | .global_to_local src dst .add_values =>
      update_store s dst (fun i => s dst i + m.g2l (s src) i)
  | .op_apply input output => update_store s output (m.apply_op (s input))
  | .assemble_diagonal target => update_store s target m.diag
  | .zero_entries v => update_store s v (fun _ => 0)
  | .local_to_global src dst .insert_values => update_store s dst (m.l2g (s src))
  | .local_to_global src dst .add_values =>
      update_store s dst (fun i => s dst i + m.l2g (s src) i)

/-- Run a step sequence from an initial store. -/
def run_trace (m : MeshOps) (tr : List OpStep) (s : Store) : Store :=
  tr.foldl (op_step_sem m) s

/-! ## Error propagation of the shell entry points (`src/petsc_ops.rs`)

Each fallible call in `apply_local_ceed_op` / `compute_diagonal_ceed` either
propagates its error with `?` or aborts the process with `.expect(...)`.
The model maps the outcome of every fallible call to the observable result
of the entry point. -/

/-- Whether one fallible call inside an entry point succeeds or fails. -/
inductive StepOutcome
  | ok
  | fail
deriving DecidableEq, Fintype, Repr

/-- The observable result of a shell entry point: normal return, an error
value returned to the caller (`?`), or a process abort (`.expect`). -/
inductive CallOutcome
  | success
  | error_returned
  | panicked
deriving DecidableEq, Fintype, Repr

/-- Result of `apply_local_ceed_op` given the outcome of each fallible call,
in source order: `global_to_local` (`?`), `x_loc.view_mut` (`?`),
`as_slice_mut` on the x view (`.expect`), `wrap_slice_mut` for x
(`.expect`), `y_loc.view_mut` (`?`), `as_slice_mut` on the y view
(`.expect`), `wrap_slice_mut` for y (`.expect`), the libCEED operator
`apply` (`.expect`), `y.zero_entries` (`?`), `local_to_global` (`?`). -/
def apply_local_ceed_op_result
    (scatter x_view x_slice x_wrap y_view y_slice y_wrap kernel zero gather :
      StepOutcome) : CallOutcome :=
  if scatter = .fail then .error_returned
  else if x_view = .fail then .error_returned
  else if x_slice = .fail then .panicked
  else if x_wrap = .fail then .panicked
  else if y_view = .fail then .error_returned
  else if y_slice = .fail then .panicked
  else if y_wrap = .fail then .panicked
  else if kernel = .fail then .panicked
  else if zero = .fail then .error_returned
  else if gather = .fail then .error_returned
  else .success

/-- Result of `compute_diagonal_ceed` given the outcome of each fallible
call, in source order: `x_loc.view_mut` (`?`), `as_slice_mut` (`.expect`),
`wrap_slice_mut` (`.expect`), `linear_assemble_diagonal` (`.expect`),
`d.zero_entries` (`?`), `local_to_global` (`?`). -/
def compute_diagonal_ceed_result
    (x_view x_slice x_wrap assemble zero gather : StepOutcome) : CallOutcome :=
  if x_view = .fail then .error_returned
  else if x_slice = .fail then .panicked
  else if x_wrap = .fail then .panicked
  else if assemble = .fail then .panicked
  else if zero = .fail then .error_returned
  else if gather = .fail then .error_returned
  else .success

/-! ## Operator construction (`mat_shell_context` in `src/ceed_bps.rs`)

`mat_shell_context` builds the bases, restrictions, quadrature-data buffer,
QFunctions and operators in a fixed order.  The construction is embedded as
the list of build events it performs, parameterized by the configured
polynomial `order`, extra quadrature count `q_extra`, the DM's topological
`dim`, the field restriction's element count `num_elements`, and the
benchmark problem `bp`. -/

/-- One build action of `mat_shell_context`, in source order.  The
`create_basis` arguments mirror libceed's `basis_tensor_H1_Lagrange`
`(dim, ncomp, P, Q, mode)`, where `P` is the number of nodes in one
dimension (polynomial degree `P - 1`) and `Q` the number of quadrature
points in one dimension. -/
inductive BuildEvent
  | create_basis (dim ncomp nodes_1d qpts_1d : Nat) (mode : QuadMode)
  | create_field_restriction
  | create_coordinate_restriction
  | create_strided_restriction (num_elements elem_size ncomp l_size : Nat)
  | create_lvector (len : Nat)
  | create_q_function (name : String)
  | build_setup_operator (input_field qdata_field : String)
  | setup_apply
  | build_main_operator (input_field qdata_field output_field : String)
deriving DecidableEq, Repr

/-- libceed's quadrature-point count of a tensor-product basis with
`qpts_1d` points per dimension in `dim` dimensions, as returned by
`basis_u.num_quadrature_points()`. -/
def basis_num_quadrature_points (qpts_1d dim : Nat) : Nat :=
  qpts_1d ^ dim

/-- The build sequence of `mat_shell_context` in `src/ceed_bps.rs`:
the coordinate basis `basis_x` (`dim` components, 2 nodes per dimension),
the field basis `basis_u` (`num_components` components, `p = order + 1`
nodes per dimension), both with `q = p + q_extra` quadrature points in the
problem's quadrature mode; the field and coordinate restrictions; the
strided quadrature-data restriction and its local vector of length
`num_elements * num_quadrature_points * q_data_size`; the setup and apply
QFunctions looked up by the catalog names; the setup operator build and its
one-shot apply filling the quadrature data; and the main operator build. -/
def mat_shell_context_trace (order q_extra dim num_elements : Nat)
    (bp : CeedBP) : List BuildEvent :=
  let data := bp_data_core bp
  let p := order + 1
  let q := p + q_extra
  let num_qpts := basis_num_quadrature_points q dim
  let l_size := num_elements * num_qpts * data.q_data_size
  [ .create_basis dim dim 2 q data.q_mode,
    .create_basis dim data.num_components p q data.q_mode,
    .create_field_restriction,
    .create_coordinate_restriction,
    .create_strided_restriction num_elements num_qpts data.q_data_size l_size,
    .create_lvector l_size,
    .create_q_function data.setup_name,
    .create_q_function data.apply_name,
    .build_setup_operator "dx" "qdata",
    .setup_apply,
    .build_main_operator data.input_name "qdata" data.output_name ]

/-- Whether a build event constructs a basis. -/
def is_create_basis : BuildEvent → Bool
  | .create_basis _ _ _ _ _ => true
  | _ => false

/-- Whether a build event is the setup-pass operator application. -/
def is_setup_apply : BuildEvent → Bool
  | .setup_apply => true
  | _ => false

/-- Whether a build event constructs the main apply operator. -/
def is_build_main_operator : BuildEvent → Bool
  | .build_main_operator _ _ _ => true
  | _ => false

/-- The basis-construction events of a build sequence. -/
def basis_events (tr : List BuildEvent) : List BuildEvent :=
  tr.filter is_create_basis

/-- The claim's reading of the coordinate basis: a basis with `dim`
components at fixed polynomial order 2, i.e. `2 + 1 = 3` nodes per
dimension in libceed's tensor-basis convention.  Written from the spec's
words, to be compared with the build sequence. -/
def coord_basis_at_poly_order_two (dim : Nat) (tr : List BuildEvent) : Prop :=
  ∃ qpts mode, BuildEvent.create_basis dim dim 3 qpts mode ∈ tr

/-! ## Kershaw mesh transformation (`src/dm.rs`)

`kershaw_transformation` walks the local coordinate vector three entries at
a time (the x, y, z of each node) and rewrites the y and z entries through
the `step`/`right`/`left` helpers.  The source computes in `f64`.  Two
models of its arithmetic are given: the exact-arithmetic idealization
(`kershaw_step`/`kershaw_right`/`kershaw_left` and
`kershaw_transform_point`, every operation as the exact rational
operation), and the IEEE binary64 semantics (`kershaw_step_f64` and
friends, every operation followed by round-to-nearest-even via `fround`),
so the two can be compared. -/

/-- `step` inside `kershaw_transformation`: transition from `a` at `x = 0`
to `b` at `x = 1`.  Exact-arithmetic idealization of the `f64` body. -/
def kershaw_step (a b x : ℚ) : ℚ :=
  if x ≤ 0 then a else if 1 ≤ x then b else a + (b - a) * x

/-- `right` inside `kershaw_transformation`: the 1D transformation at the
right boundary.  Exact-arithmetic idealization of the `f64` body. -/
def kershaw_right (eps x : ℚ) : ℚ :=
  if x ≤ 1 / 2 then (2 - eps) * x else 1 + eps * (x - 1)

/-- `left` inside `kershaw_transformation`: the 1D transformation at the
left boundary.  Exact-arithmetic idealization of the `f64` body
(`1. - x` and the inner `right` are modelled as exact operations; the
binary64 semantics, where both subtractions round, is `kershaw_left_f64`
below). -/
def kershaw_left (eps x : ℚ) : ℚ :=
  1 - kershaw_right eps (1 - x)

/-- Rust's `as i32` cast on a float value: truncation toward zero. -/
def rat_trunc (q : ℚ) : ℤ :=
  if 0 ≤ q then ⌊q⌋ else ⌈q⌉

/-- The per-node body of the `kershaw_transformation` loop: `layer` is
`6 * (x as i32)`, `lambda` is `(x - layer / 6) * 6`, and the y and z
entries are rewritten according to the layer match; the x entry is never
written.  Exact-arithmetic idealization of the `f64` loop body (the
binary64 semantics is `kershaw_transform_point_f64` below). -/
def kershaw_transform_point (eps : ℚ) : ℚ × ℚ × ℚ → ℚ × ℚ × ℚ
  | (x, y, z) =>
    let layer : ℤ := 6 * rat_trunc x
    let lambda : ℚ := (x - (layer : ℚ) / 6) * 6
    if layer = 0 then
      (x, kershaw_left eps y, kershaw_left eps z)
    else if layer = 1 ∨ layer = 4 then
      (x, kershaw_step (kershaw_left eps y) (kershaw_right eps y) lambda,
        kershaw_step (kershaw_left eps z) (kershaw_right eps z) lambda)
    else if layer = 2 then
      (x, kershaw_step (kershaw_right eps y) (kershaw_left eps y) (lambda / 2),
        kershaw_step (kershaw_right eps z) (kershaw_left eps z) (lambda / 2))
    else if layer = 3 then
      (x, kershaw_step (kershaw_right eps y) (kershaw_left eps y) ((1 + lambda) / 2),
        kershaw_step (kershaw_right eps z) (kershaw_left eps z) ((1 + lambda) / 2))
    else
      (x, kershaw_right eps y, kershaw_right eps z)

/-- `kershaw_transformation` from `src/dm.rs` on the local coordinate
vector, viewed as its list of (x, y, z) node triples (the source iterates
the flat coordinate array with stride 3).  Exact-arithmetic idealization;
the binary64 semantics is `kershaw_transformation_f64` below. -/
def kershaw_transformation (eps : ℚ) (coords : List (ℚ × ℚ × ℚ)) :
    List (ℚ × ℚ × ℚ) :=
  coords.map (kershaw_transform_point eps)

/-! ### IEEE binary64 semantics of the Kershaw arithmetic

The finite binary64 values are the rationals `m * 2 ^ e` with `|m| < 2 ^ 53`
and `e ≥ -1074`, and each `f64` arithmetic operation rounds its exact result
to the nearest such value, ties to the even mantissa.  `fround` implements
that rounding for results in the finite range (overflow to infinity and NaN
are outside the range of the mesh coordinates considered), and the Kershaw
helpers are re-embedded with every operation rounded, mirroring the `f64`
evaluation of the source expression for expression. -/

/-- Round a rational to the nearest integer, ties to the even integer. -/
def round_ties_even (s : ℚ) : ℤ :=
  if s - (⌊s⌋ : ℚ) < 1 / 2 then ⌊s⌋
  else if 1 / 2 < s - (⌊s⌋ : ℚ) then ⌊s⌋ + 1
  else if ⌊s⌋ % 2 = 0 then ⌊s⌋ else ⌊s⌋ + 1

/-- IEEE binary64 round-to-nearest-even of an exact rational value (for
results in the finite range): the unit in the last place for the binade of
`q` is `2 ^ (Int.log 2 |q| - 52)` for normal magnitudes, clamped to
`2 ^ (-1074)` for subnormal ones; `q` is rounded to the nearest integer
multiple of it, ties to the even multiple. -/
def fround (q : ℚ) : ℚ :=
  if q = 0 then 0
  else (round_ties_even (q / 2 ^ max (Int.log 2 |q| - 52) (-1074)) : ℚ) *
    2 ^ max (Int.log 2 |q| - 52) (-1074)

/-- binary64 addition: exact sum, then rounding. -/
def fadd (a b : ℚ) : ℚ := fround (a + b)

/-- binary64 subtraction: exact difference, then rounding. -/
def fsub (a b : ℚ) : ℚ := fround (a - b)

/-- binary64 multiplication: exact product, then rounding. -/
def fmul (a b : ℚ) : ℚ := fround (a * b)

/-- binary64 division: exact quotient, then rounding. -/
def fdiv (a b : ℚ) : ℚ := fround (a / b)

/-- `step` inside `kershaw_transformation` under binary64 semantics:
`a + (b - a) * x` with every operation rounded (comparisons of finite
values coincide with the rational ones). -/
def kershaw_step_f64 (a b x : ℚ) : ℚ :=
  if x ≤ 0 then a else if 1 ≤ x then b else fadd a (fmul (fsub b a) x)

/-- `right` inside `kershaw_transformation` under binary64 semantics. -/
def kershaw_right_f64 (eps x : ℚ) : ℚ :=
  if x ≤ 1 / 2 then fmul (fsub 2 eps) x else fadd 1 (fmul eps (fsub x 1))

/-- `left` inside `kershaw_transformation` under binary64 semantics: both
subtractions of `1. - right(eps, 1. - x)` round. -/
def kershaw_left_f64 (eps x : ℚ) : ℚ :=
  fsub 1 (kershaw_right_f64 eps (fsub 1 x))

/-- `layer` of the loop body: `6 * (x as i32)`, the cast truncating toward
zero (exact in `i32` for mesh coordinates). -/
def kershaw_layer (x : ℚ) : ℤ :=
  6 * rat_trunc x

/-- `lambda` of the loop body under binary64 semantics:
`(x - layer as f64 / 6.0) * 6.0` with the division, subtraction and
multiplication rounded (the `i32`-to-`f64` cast of `layer` is exact). -/
def kershaw_lambda_f64 (x : ℚ) : ℚ :=
  fmul (fsub x (fdiv (kershaw_layer x : ℚ) 6)) 6

/-- The per-node body of the `kershaw_transformation` loop under binary64
semantics. -/
def kershaw_transform_point_f64 (eps : ℚ) : ℚ × ℚ × ℚ → ℚ × ℚ × ℚ
  | (x, y, z) =>
    if kershaw_layer x = 0 then
      (x, kershaw_left_f64 eps y, kershaw_left_f64 eps z)
    else if kershaw_layer x = 1 ∨ kershaw_layer x = 4 then
      (x,
        kershaw_step_f64 (kershaw_left_f64 eps y) (kershaw_right_f64 eps y)
          (kershaw_lambda_f64 x),
        kershaw_step_f64 (kershaw_left_f64 eps z) (kershaw_right_f64 eps z)
          (kershaw_lambda_f64 x))
    else if kershaw_layer x = 2 then
      (x,
        kershaw_step_f64 (kershaw_right_f64 eps y) (kershaw_left_f64 eps y)
          (fdiv (kershaw_lambda_f64 x) 2),
        kershaw_step_f64 (kershaw_right_f64 eps z) (kershaw_left_f64 eps z)
          (fdiv (kershaw_lambda_f64 x) 2))
    else if kershaw_layer x = 3 then
      (x,
        kershaw_step_f64 (kershaw_right_f64 eps y) (kershaw_left_f64 eps y)
          (fdiv (fadd 1 (kershaw_lambda_f64 x)) 2),
        kershaw_step_f64 (kershaw_right_f64 eps z) (kershaw_left_f64 eps z)
          (fdiv (fadd 1 (kershaw_lambda_f64 x)) 2))
    else
      (x, kershaw_right_f64 eps y, kershaw_right_f64 eps z)

/-- `kershaw_transformation` under binary64 semantics. -/
def kershaw_transformation_f64 (eps : ℚ) (coords : List (ℚ × ℚ × ℚ)) :
    List (ℚ × ℚ × ℚ) :=
  coords.map (kershaw_transform_point_f64 eps)

/-- The binary64 value nearest 1/3: `6004799503160661 * 2 ^ (-54)`, an
ordinary mesh coordinate. -/
def fl_third : ℚ :=
  6004799503160661 / 2 ^ 54

end Meles

/-- C3: for every one of the six problem ids, the catalog lookup `bp_data`
succeeds and yields a `BPData` whose component count is in {1,3} and
quadrature-data size is in {1,6}, matching the documented table, with the
documented quadrature family and with boundary conditions enforced exactly
for the Poisson problems BP3..BP6. -/
theorem Meles.bp_data_matches_table (bp : Meles.CeedBP) :
    ∃ d, Meles.bp_data bp = Except.ok d ∧
      d.num_components = Meles.spec_num_components bp ∧
      (d.num_components = 1 ∨ d.num_components = 3) ∧
      d.q_data_size = Meles.spec_q_data_size bp ∧
      (d.q_data_size = 1 ∨ d.q_data_size = 6) ∧
      d.q_mode = Meles.spec_q_mode bp ∧
      d.set_boundary_conditions = Meles.spec_enforce_boundary bp := by
  refine ⟨Meles.bp_data_core bp, rfl, ?_⟩
  cases bp <;> simp [Meles.bp_data_core, Meles.spec_num_components,
    Meles.spec_q_data_size, Meles.spec_q_mode, Meles.spec_enforce_boundary]

/-- C6: parsing any string other than "bp1".."bp6" as a problem id fails
with the configuration error, and each of the six known strings parses to
its corresponding variant. -/
theorem Meles.from_str_spec (s : String)
    (h : s ≠ "bp1" ∧ s ≠ "bp2" ∧ s ≠ "bp3" ∧ s ≠ "bp4" ∧ s ≠ "bp5" ∧ s ≠ "bp6") :
    Meles.CeedBP.from_str s = .error ⟨"failed to parse problem option"⟩ ∧
      Meles.CeedBP.from_str "bp1" = .ok .BP1 ∧
      Meles.CeedBP.from_str "bp2" = .ok .BP2 ∧
      Meles.CeedBP.from_str "bp3" = .ok .BP3 ∧
      Meles.CeedBP.from_str "bp4" = .ok .BP4 ∧
      Meles.CeedBP.from_str "bp5" = .ok .BP5 ∧
      Meles.CeedBP.from_str "bp6" = .ok .BP6 := by
  obtain ⟨h1, h2, h3, h4, h5, h6⟩ := h
  refine ⟨?_, rfl, rfl, rfl, rfl, rfl, rfl⟩
  simp only [Meles.CeedBP.from_str, if_neg h1, if_neg h2, if_neg h3, if_neg h4,
    if_neg h5, if_neg h6]

/-- Witness for C6 at the concrete unknown id "bp7". -/
theorem Meles.from_str_spec_witness :
    Meles.CeedBP.from_str "bp7" = .error ⟨"failed to parse problem option"⟩ ∧
      Meles.CeedBP.from_str "bp1" = .ok .BP1 ∧
      Meles.CeedBP.from_str "bp2" = .ok .BP2 ∧
      Meles.CeedBP.from_str "bp3" = .ok .BP3 ∧
      Meles.CeedBP.from_str "bp4" = .ok .BP4 ∧
      Meles.CeedBP.from_str "bp5" = .ok .BP5 ∧
      Meles.CeedBP.from_str "bp6" = .ok .BP6 :=
  Meles.from_str_spec "bp7" (by decide)

/-- C10: `Display` followed by `FromStr` round-trips on every problem id:
parsing `bp.display` returns `Ok bp` for each of the six variants. -/
theorem Meles.display_from_str_round_trip (bp : Meles.CeedBP) :
    Meles.CeedBP.from_str bp.display = .ok bp := by
  cases bp <;> rfl

/-- C7: the index involution returns `i` unchanged for `i ≥ 0` and `-(i+1)`
for `i < 0`; its result is always non-negative and it is idempotent. -/
theorem Meles.involute_spec (i : ℤ) :
    (0 ≤ i → Meles.involute i = i) ∧
      (i < 0 → Meles.involute i = -(i + 1)) ∧
      0 ≤ Meles.involute i ∧
      Meles.involute (Meles.involute i) = Meles.involute i := by
  unfold Meles.involute
  split_ifs with h h' <;> constructor <;> try constructor
  all_goals try constructor
  all_goals omega

/-- Witness for C7 at the concrete constrained index `-5`. -/
theorem Meles.involute_spec_witness :
    Meles.involute (-5) = -((-5) + 1) ∧ 0 ≤ Meles.involute (-5) ∧
      Meles.involute (Meles.involute (-5)) = Meles.involute (-5) :=
  ⟨(Meles.involute_spec (-5)).2.1 (by decide),
    (Meles.involute_spec (-5)).2.2.1,
    (Meles.involute_spec (-5)).2.2.2⟩

/-- C4: `apply_local_ceed_op` performs exactly the sequence scatter
(`INSERT_VALUES`), libCEED operator apply on the local scratch vectors,
zero of the global output, gather (`ADD_VALUES`); insert mode is the only
scatter mode and add mode the only gather mode in the sequence; and, under
the step semantics, the resulting global output is the gathered operator
action on the scattered input, accumulated onto the zeroed output. -/
theorem Meles.apply_local_ceed_op_spec (m : Meles.MeshOps) (s : Meles.Store) :
    Meles.apply_local_ceed_op_trace =
      [ .global_to_local .xGlobal .xLoc .insert_values,
        .op_apply .xLoc .yLoc,
        .zero_entries .yGlobal,
        .local_to_global .yLoc .yGlobal .add_values ] ∧
    (Meles.apply_local_ceed_op_trace.all fun st =>
      Meles.scatter_mode_is_insert st && Meles.gather_mode_is_add st) = true ∧
    Meles.run_trace m Meles.apply_local_ceed_op_trace s .yGlobal =
      fun i => m.l2g (m.apply_op (m.g2l (s .xGlobal))) i := by
  refine ⟨rfl, rfl, ?_⟩
  funext i
  simp [Meles.run_trace, Meles.apply_local_ceed_op_trace, Meles.op_step_sem,
    Meles.update_store]

/-- C1 counterexample: `compute_diagonal_ceed` performs no global-to-local
scatter at all, so its step sequence is not the apply sequence with
`assemble_diagonal` substituted for the operator apply (which would retain
the scatter step). -/
theorem Meles.compute_diagonal_trace_counterexample :
    Meles.compute_diagonal_ceed_trace.countP Meles.is_global_to_local = 0 ∧
    Meles.compute_diagonal_ceed_trace ≠ Meles.claimed_get_diagonal_trace := by
  decide

/-- C1 (amended): `compute_diagonal_ceed` assembles the diagonal into the
local input scratch `x_loc`, zeroes the global vector `d`, and gathers
`x_loc` into `d` with accumulate mode — the apply sequence with
`assemble_diagonal` substituted and the initial scatter omitted (there is
no global input to scatter); under the step semantics, `d` ends up as the
gathered diagonal, accumulated onto the zeroed `d`. -/
theorem Meles.compute_diagonal_ceed_spec (m : Meles.MeshOps) (s : Meles.Store) :
    Meles.compute_diagonal_ceed_trace =
      [ .assemble_diagonal .xLoc,
        .zero_entries .dGlobal,
        .local_to_global .xLoc .dGlobal .add_values ] ∧
    Meles.compute_diagonal_ceed_trace = Meles.claimed_get_diagonal_trace.drop 1 ∧
    Meles.run_trace m Meles.compute_diagonal_ceed_trace s .dGlobal =
      fun i => m.l2g m.diag i := by
  refine ⟨rfl, rfl, ?_⟩
  funext i
  simp [Meles.run_trace, Meles.compute_diagonal_ceed_trace, Meles.op_step_sem,
    Meles.update_store]

/-- C2 counterexample: a failure of the libCEED kernel apply inside
`apply_local_ceed_op` aborts via `.expect` (a panic), not via an error
value returned to the caller. -/
theorem Meles.shell_error_policy_counterexample :
    Meles.apply_local_ceed_op_result .ok .ok .ok .ok .ok .ok .ok .fail .ok .ok =
      .panicked ∧
    Meles.CallOutcome.panicked ≠ Meles.CallOutcome.error_returned := by
  decide

set_option maxHeartbeats 2000000 in
set_option synthInstance.maxHeartbeats 1000000 in
set_option synthInstance.maxSize 20000 in
/-- C2 (amended): in both shell entry points no failure is swallowed and no
partial result is returned as valid — the call succeeds exactly when every
fallible step succeeds.  Failures of the `?`-propagated steps (scatter,
view creation, zeroing, gather) surface as error values to the caller;
failures of the `.expect`-guarded steps (slice deref, libCEED view
wrapping, kernel apply, diagonal assembly) abort via panic instead. -/
theorem Meles.shell_error_policy_amended :
    (∀ scatter x_view x_slice x_wrap y_view y_slice y_wrap kernel zero gather :
        Meles.StepOutcome,
      (Meles.apply_local_ceed_op_result scatter x_view x_slice x_wrap y_view
          y_slice y_wrap kernel zero gather = .success ↔
        (scatter = .ok ∧ x_view = .ok ∧ x_slice = .ok ∧ x_wrap = .ok ∧
          y_view = .ok ∧ y_slice = .ok ∧ y_wrap = .ok ∧ kernel = .ok ∧
          zero = .ok ∧ gather = .ok)) ∧
      (scatter = .fail →
        Meles.apply_local_ceed_op_result scatter x_view x_slice x_wrap y_view
          y_slice y_wrap kernel zero gather = .error_returned) ∧
      (scatter = .ok ∧ x_view = .fail →
        Meles.apply_local_ceed_op_result scatter x_view x_slice x_wrap y_view
          y_slice y_wrap kernel zero gather = .error_returned) ∧
      (scatter = .ok ∧ x_view = .ok ∧ x_slice = .fail →
        Meles.apply_local_ceed_op_result scatter x_view x_slice x_wrap y_view
          y_slice y_wrap kernel zero gather = .panicked) ∧
      (scatter = .ok ∧ x_view = .ok ∧ x_slice = .ok ∧ x_wrap = .fail →
        Meles.apply_local_ceed_op_result scatter x_view x_slice x_wrap y_view
          y_slice y_wrap kernel zero gather = .panicked) ∧
      (scatter = .ok ∧ x_view = .ok ∧ x_slice = .ok ∧ x_wrap = .ok ∧
          y_view = .fail →
        Meles.apply_local_ceed_op_result scatter x_view x_slice x_wrap y_view
          y_slice y_wrap kernel zero gather = .error_returned) ∧
      (scatter = .ok ∧ x_view = .ok ∧ x_slice = .ok ∧ x_wrap = .ok ∧
          y_view = .ok ∧ y_slice = .fail →
        Meles.apply_local_ceed_op_result scatter x_view x_slice x_wrap y_view
          y_slice y_wrap kernel zero gather = .panicked) ∧
      (scatter = .ok ∧ x_view = .ok ∧ x_slice = .ok ∧ x_wrap = .ok ∧
          y_view = .ok ∧ y_slice = .ok ∧ y_wrap = .fail →
        Meles.apply_local_ceed_op_result scatter x_view x_slice x_wrap y_view
          y_slice y_wrap kernel zero gather = .panicked) ∧
      (scatter = .ok ∧ x_view = .ok ∧ x_slice = .ok ∧ x_wrap = .ok ∧
          y_view = .ok ∧ y_slice = .ok ∧ y_wrap = .ok ∧ kernel = .fail →
        Meles.apply_local_ceed_op_result scatter x_view x_slice x_wrap y_view
          y_slice y_wrap kernel zero gather = .panicked) ∧
      (scatter = .ok ∧ x_view = .ok ∧ x_slice = .ok ∧ x_wrap = .ok ∧
          y_view = .ok ∧ y_slice = .ok ∧ y_wrap = .ok ∧ kernel = .ok ∧
          zero = .fail →
        Meles.apply_local_ceed_op_result scatter x_view x_slice x_wrap y_view
          y_slice y_wrap kernel zero gather = .error_returned) ∧
      (scatter = .ok ∧ x_view = .ok ∧ x_slice = .ok ∧ x_wrap = .ok ∧
          y_view = .ok ∧ y_slice = .ok ∧ y_wrap = .ok ∧ kernel = .ok ∧
          zero = .ok ∧ gather = .fail →
        Meles.apply_local_ceed_op_result scatter x_view x_slice x_wrap y_view
          y_slice y_wrap kernel zero gather = .error_returned)) ∧
    (∀ x_view x_slice x_wrap assemble zero gather : Meles.StepOutcome,
      (Meles.compute_diagonal_ceed_result x_view x_slice x_wrap assemble zero
          gather = .success ↔
        (x_view = .ok ∧ x_slice = .ok ∧ x_wrap = .ok ∧ assemble = .ok ∧
          zero = .ok ∧ gather = .ok)) ∧
      (x_view = .fail →
        Meles.compute_diagonal_ceed_result x_view x_slice x_wrap assemble zero
          gather = .error_returned) ∧
      (x_view = .ok ∧ x_slice = .fail →
        Meles.compute_diagonal_ceed_result x_view x_slice x_wrap assemble zero
          gather = .panicked) ∧
      (x_view = .ok ∧ x_slice = .ok ∧ x_wrap = .fail →
        Meles.compute_diagonal_ceed_result x_view x_slice x_wrap assemble zero
          gather = .panicked) ∧
      (x_view = .ok ∧ x_slice = .ok ∧ x_wrap = .ok ∧ assemble = .fail →
        Meles.compute_diagonal_ceed_result x_view x_slice x_wrap assemble zero
          gather = .panicked) ∧
      (x_view = .ok ∧ x_slice = .ok ∧ x_wrap = .ok ∧ assemble = .ok ∧
          zero = .fail →
        Meles.compute_diagonal_ceed_result x_view x_slice x_wrap assemble zero
          gather = .error_returned) ∧
      (x_view = .ok ∧ x_slice = .ok ∧ x_wrap = .ok ∧ assemble = .ok ∧
          zero = .ok ∧ gather = .fail →
        Meles.compute_diagonal_ceed_result x_view x_slice x_wrap assemble zero
          gather = .error_returned)) := by
  constructor <;> decide

/-- Witness for C2 (amended) at a concrete failing scatter. -/
theorem Meles.shell_error_policy_witness :
    Meles.apply_local_ceed_op_result .fail .ok .ok .ok .ok .ok .ok .ok .ok .ok =
      .error_returned :=
  (Meles.shell_error_policy_amended.1 .fail .ok .ok .ok .ok .ok .ok .ok .ok
    .ok).2.1 rfl

/-- C5 counterexample: in the build sequence at the default configuration
(order 3, one extra quadrature point, dimension 3, BP1), no basis at
polynomial order 2 (3 nodes per dimension) is built for the coordinates —
the coordinate basis `basis_x` is constructed with the literal 2 as its
node count (polynomial order 1). -/
theorem Meles.mat_shell_context_counterexample :
    ¬ Meles.coord_basis_at_poly_order_two 3
      (Meles.mat_shell_context_trace 3 1 3 8 .BP1) := by
  rintro ⟨qpts, mode, hmem⟩
  simp [Meles.coord_basis_at_poly_order_two, Meles.mat_shell_context_trace,
    Meles.bp_data_core, Meles.basis_num_quadrature_points] at hmem

/-- C5 (amended): for every configured run, operator construction builds
exactly two bases: a coordinate/geometry basis with a fixed 2 nodes per
dimension (polynomial order 1, matching the order-1 coordinate FE of
`setup_dm_by_order`), and a field basis at the configured order with
`p = order + 1` nodes per dimension, both with `q = p + q_extra` quadrature
points in the problem's quadrature family. -/
theorem Meles.mat_shell_context_two_bases (order q_extra dim num_elements : Nat)
    (bp : Meles.CeedBP) :
    Meles.basis_events
        (Meles.mat_shell_context_trace order q_extra dim num_elements bp) =
      [ .create_basis dim dim 2 (order + 1 + q_extra)
          (Meles.bp_data_core bp).q_mode,
        .create_basis dim (Meles.bp_data_core bp).num_components (order + 1)
          (order + 1 + q_extra) (Meles.bp_data_core bp).q_mode ] := rfl

/-- C8: the quadrature-data local vector created during operator
construction has length exactly `num_elements * num_quadrature_points *
q_data_size` (element count from the field restriction, quadrature-point
count from the field basis, data size from the catalog entry), and the
build sequence contains exactly one setup-pass application, placed before
the main apply operator is constructed. -/
theorem Meles.qdata_buffer_spec (order q_extra dim num_elements : Nat)
    (bp : Meles.CeedBP) :
    (Meles.mat_shell_context_trace order q_extra dim num_elements bp).get? 5 =
      some (.create_lvector (num_elements *
        Meles.basis_num_quadrature_points (order + 1 + q_extra) dim *
        (Meles.bp_data_core bp).q_data_size)) ∧
    (Meles.mat_shell_context_trace order q_extra dim num_elements bp).countP
      Meles.is_setup_apply = 1 ∧
    (Meles.mat_shell_context_trace order q_extra dim num_elements bp).findIdx
        Meles.is_setup_apply <
      (Meles.mat_shell_context_trace order q_extra dim num_elements bp).findIdx
        Meles.is_build_main_operator ∧
    (Meles.mat_shell_context_trace order q_extra dim num_elements bp).findIdx
        Meles.is_build_main_operator <
      (Meles.mat_shell_context_trace order q_extra dim num_elements bp).length := by
  refine ⟨rfl, rfl, ?_, ?_⟩
  · show (9 : Nat) < 10
    decide
  · show (10 : Nat) < 11
    decide

/-- The right-boundary 1D map is the identity at `eps = 1`. -/
theorem Meles.kershaw_right_one (x : ℚ) : Meles.kershaw_right 1 x = x := by
  unfold Meles.kershaw_right
  split_ifs <;> ring

/-- The left-boundary 1D map is the identity at `eps = 1`. -/
theorem Meles.kershaw_left_one (x : ℚ) : Meles.kershaw_left 1 x = x := by
  unfold Meles.kershaw_left
  rw [Meles.kershaw_right_one]
  ring

/-- `step` between equal endpoints is constant. -/
theorem Meles.kershaw_step_same (a t : ℚ) : Meles.kershaw_step a a t = a := by
  unfold Meles.kershaw_step
  split_ifs <;> ring

/-- The per-node Kershaw transformation is the identity at `eps = 1`. -/
theorem Meles.kershaw_transform_point_one (p : ℚ × ℚ × ℚ) :
    Meles.kershaw_transform_point 1 p = p := by
  obtain ⟨x, y, z⟩ := p
  simp only [Meles.kershaw_transform_point, Meles.kershaw_left_one,
    Meles.kershaw_right_one, Meles.kershaw_step_same]
  split_ifs <;> rfl

/-- C9 (amended): for `eps = 1` the Kershaw mesh transformation is the
identity in exact arithmetic: with every `f64` operation modelled as the
exact rational operation, every entry (x, y and z of every node) of every
coordinate vector is left unchanged.  Under the binary64 semantics of the
source this holds only up to rounding: the program can perturb y and z
entries by one unit in the last place, so it is not exactly the identity. -/
theorem Meles.kershaw_transformation_identity (coords : List (ℚ × ℚ × ℚ)) :
    Meles.kershaw_transformation 1 coords = coords := by
  induction coords with
  | nil => rfl
  | cons p rest ih =>
    simp only [Meles.kershaw_transformation, List.map_cons] at ih ⊢
    rw [Meles.kershaw_transform_point_one, ih]

/-- Characterization of `Int.log` base 2 on positive rationals by the
enclosing binade. -/
theorem Meles.int_log_two_eq (a : ℚ) (e : ℤ) (h0 : 0 < a)
    (h1 : (2 : ℚ) ^ e ≤ a) (h2 : a < (2 : ℚ) ^ (e + 1)) : Int.log 2 a = e := by
  have hb : (1 : ℕ) < 2 := one_lt_two
  have hcast : ((2 : ℕ) : ℚ) = (2 : ℚ) := by norm_num
  have hle : e ≤ Int.log 2 a := by
    have h : Int.log 2 ((2 : ℚ) ^ e) ≤ Int.log 2 a :=
      Int.log_mono_right (zpow_pos (by norm_num) e) h1
    rwa [show ((2 : ℚ) ^ e) = ((2 : ℕ) : ℚ) ^ e by rw [hcast],
      Int.log_zpow hb] at h
  have hlt : Int.log 2 a ≤ e := by
    by_contra hc
    push_neg at hc
    have h3 : (2 : ℚ) ^ (e + 1) ≤ (2 : ℚ) ^ Int.log 2 a :=
      zpow_le_zpow_right₀ (by norm_num) (by omega)
    have h4 : ((2 : ℕ) : ℚ) ^ Int.log 2 a ≤ a := Int.zpow_log_le_self hb h0
    rw [hcast] at h4
    linarith
  omega

/-- `round_ties_even` at a value within `[n, n + 1/2)` returns `n`. -/
theorem Meles.round_ties_even_low (s : ℚ) (n : ℤ)
    (h1 : (n : ℚ) ≤ s) (h2 : s < (n : ℚ) + 1 / 2) :
    Meles.round_ties_even s = n := by
  have hf : ⌊s⌋ = n := Int.floor_eq_iff.mpr ⟨h1, by linarith⟩
  unfold Meles.round_ties_even
  rw [hf, if_pos (by linarith)]

/-- `round_ties_even` at an exact integer returns that integer. -/
theorem Meles.round_ties_even_int (s : ℚ) (n : ℤ) (hs : s = (n : ℚ)) :
    Meles.round_ties_even s = n :=
  Meles.round_ties_even_low s n (le_of_eq hs.symm) (by rw [hs]; linarith)

/-- `round_ties_even` at an exact half-integer tie with odd integer part
rounds up to the even neighbour. -/
theorem Meles.round_ties_even_tie_up (s : ℚ) (n : ℤ)
    (hs : s = (n : ℚ) + 1 / 2) (hodd : n % 2 = 1) :
    Meles.round_ties_even s = n + 1 := by
  have hf : ⌊s⌋ = n :=
    Int.floor_eq_iff.mpr ⟨by rw [hs]; linarith, by rw [hs]; linarith⟩
  unfold Meles.round_ties_even
  rw [hf, if_neg (not_lt.mpr (by rw [hs]; linarith)),
    if_neg (not_lt.mpr (by rw [hs]; linarith)), if_neg (by omega)]

/-- Evaluation rule for `fround`: if `|q|` lies in the binade `[2^e, 2^(e+1))`
and `q` scaled by the ulp `2^p` rounds to the integer `n`, then
`fround q = n * 2^p`. -/
theorem Meles.fround_eval (q a : ℚ) (e p n : ℤ)
    (hq : q ≠ 0) (habs : |q| = a)
    (h1 : (2 : ℚ) ^ e ≤ a) (h2 : a < (2 : ℚ) ^ (e + 1))
    (hp : max (e - 52) (-1074 : ℤ) = p)
    (hn : Meles.round_ties_even (q / 2 ^ p) = n) :
    Meles.fround q = (n : ℚ) * 2 ^ p := by
  have h0 : 0 < a := lt_of_lt_of_le (zpow_pos (by norm_num) e) h1
  have hl : Int.log 2 |q| = e := by
    rw [habs]
    exact Meles.int_log_two_eq a e h0 h1 h2
  unfold Meles.fround
  rw [if_neg hq, hl, hp, hn]

/-- `fround` maps zero to zero. -/
theorem Meles.fround_zero : Meles.fround 0 = 0 := by
  unfold Meles.fround
  rw [if_pos rfl]

/-- `fround` maps one to one. -/
theorem Meles.fround_one : Meles.fround 1 = 1 := by
  refine (Meles.fround_eval 1 1 0 (-52) 4503599627370496 (by norm_num)
    (abs_of_pos (by norm_num)) (by norm_num) (by norm_num)
    (by norm_num [max_def]) ?_).trans (by push_cast; rw [zpow_neg]; norm_num)
  refine Meles.round_ties_even_int _ _ ?_
  push_cast
  rw [zpow_neg]
  norm_num

/-- Under binary64 semantics, `left(1.0, fl(1/3))` loses one unit in the
last place: the subtraction `1. - fl(1/3)` hits an exact tie and rounds to
even, and the perturbation survives the remaining exactly-representable
steps. -/
theorem Meles.kershaw_left_f64_one_third :
    Meles.kershaw_left_f64 1 Meles.fl_third =
      6004799503160660 * (2 : ℚ) ^ (-54 : ℤ) := by
  have e1 : Meles.fsub 1 Meles.fl_third = 6004799503160662 * (2 : ℚ) ^ (-53 : ℤ) := by
    unfold Meles.fsub Meles.fl_third
    rw [show (1 : ℚ) - 6004799503160661 / 2 ^ 54 = 12009599006321323 / 2 ^ 54 by norm_num]
    refine (Meles.fround_eval _ (12009599006321323 / 2 ^ 54) (-1) (-53) 6004799503160662
      (by norm_num) (abs_of_pos (by norm_num)) (by norm_num) (by norm_num)
      (by norm_num [max_def]) ?_).trans (by push_cast; ring)
    refine (Meles.round_ties_even_tie_up _ 6004799503160661 ?_ (by norm_num)).trans (by norm_num)
    push_cast
    rw [zpow_neg]
    norm_num
  have e2 : Meles.fsub (6004799503160662 * (2 : ℚ) ^ (-53 : ℤ)) 1 =
      -(6004799503160660 * (2 : ℚ) ^ (-54 : ℤ)) := by
    unfold Meles.fsub
    rw [show (6004799503160662 * (2 : ℚ) ^ (-53 : ℤ)) - 1 =
      -(6004799503160660 / 2 ^ 54) by rw [zpow_neg]; norm_num]
    refine (Meles.fround_eval _ (6004799503160660 / 2 ^ 54) (-2) (-54) (-6004799503160660)
      (by norm_num) ((abs_neg _).trans (abs_of_pos (by norm_num))) (by norm_num) (by norm_num)
      (by norm_num [max_def]) ?_).trans (by push_cast; ring)
    refine Meles.round_ties_even_int _ _ ?_
    push_cast
    rw [zpow_neg]
    norm_num
  have e3 : Meles.fmul 1 (-(6004799503160660 * (2 : ℚ) ^ (-54 : ℤ))) =
      -(6004799503160660 * (2 : ℚ) ^ (-54 : ℤ)) := by
    unfold Meles.fmul
    rw [show (1 : ℚ) * (-(6004799503160660 * (2 : ℚ) ^ (-54 : ℤ))) =
      -(6004799503160660 / 2 ^ 54) by rw [zpow_neg]; norm_num]
    refine (Meles.fround_eval _ (6004799503160660 / 2 ^ 54) (-2) (-54) (-6004799503160660)
      (by norm_num) ((abs_neg _).trans (abs_of_pos (by norm_num))) (by norm_num) (by norm_num)
      (by norm_num [max_def]) ?_).trans (by push_cast; ring)
    refine Meles.round_ties_even_int _ _ ?_
    push_cast
    rw [zpow_neg]
    norm_num
  have e4 : Meles.fadd 1 (-(6004799503160660 * (2 : ℚ) ^ (-54 : ℤ))) =
      6004799503160662 * (2 : ℚ) ^ (-53 : ℤ) := by
    unfold Meles.fadd
    rw [show (1 : ℚ) + (-(6004799503160660 * (2 : ℚ) ^ (-54 : ℤ))) =
      12009599006321324 / 2 ^ 54 by rw [zpow_neg]; norm_num]
    refine (Meles.fround_eval _ (12009599006321324 / 2 ^ 54) (-1) (-53) 6004799503160662
      (by norm_num) (abs_of_pos (by norm_num)) (by norm_num) (by norm_num)
      (by norm_num [max_def]) ?_).trans (by push_cast; ring)
    refine Meles.round_ties_even_int _ _ ?_
    push_cast
    rw [zpow_neg]
    norm_num
  have e5 : Meles.fsub 1 (6004799503160662 * (2 : ℚ) ^ (-53 : ℤ)) =
      6004799503160660 * (2 : ℚ) ^ (-54 : ℤ) := by
    unfold Meles.fsub
    rw [show (1 : ℚ) - 6004799503160662 * (2 : ℚ) ^ (-53 : ℤ) =
      6004799503160660 / 2 ^ 54 by rw [zpow_neg]; norm_num]
    refine (Meles.fround_eval _ (6004799503160660 / 2 ^ 54) (-2) (-54) 6004799503160660
      (by norm_num) (abs_of_pos (by norm_num)) (by norm_num) (by norm_num)
      (by norm_num [max_def]) ?_).trans (by push_cast; ring)
    refine Meles.round_ties_even_int _ _ ?_
    push_cast
    rw [zpow_neg]
    norm_num
  unfold Meles.kershaw_left_f64 Meles.kershaw_right_f64
  rw [e1, if_neg (not_le.mpr (by rw [zpow_neg]; norm_num)), e2, e3, e4, e5]

/-- Under binary64 semantics, `left(1.0, 0.0) = 0.0` exactly. -/
theorem Meles.kershaw_left_f64_one_zero : Meles.kershaw_left_f64 1 0 = 0 := by
  have f1 : Meles.fsub 1 (0 : ℚ) = 1 := by
    unfold Meles.fsub
    rw [show (1 : ℚ) - 0 = 1 by norm_num, Meles.fround_one]
  have f0 : Meles.fsub 1 (1 : ℚ) = 0 := by
    unfold Meles.fsub
    rw [show (1 : ℚ) - 1 = 0 by norm_num, Meles.fround_zero]
  have fm : Meles.fmul 1 (0 : ℚ) = 0 := by
    unfold Meles.fmul
    rw [show (1 : ℚ) * 0 = 0 by norm_num, Meles.fround_zero]
  have fa : Meles.fadd 1 (0 : ℚ) = 1 := by
    unfold Meles.fadd
    rw [show (1 : ℚ) + 0 = 1 by norm_num, Meles.fround_one]
  unfold Meles.kershaw_left_f64 Meles.kershaw_right_f64
  rw [f1, if_neg (not_le.mpr (by norm_num)), f0, fm, fa, f0]

/-- The node at the origin lies in layer 0. -/
theorem Meles.kershaw_layer_zero : Meles.kershaw_layer 0 = 0 := by
  unfold Meles.kershaw_layer Meles.rat_trunc
  rw [if_pos le_rfl]
  norm_num

/-- C9 counterexample: under the IEEE binary64 semantics of the source, the
Kershaw transformation at `eps = 1` is not the identity: the node
`(0, fl(1/3), 0)` has its y entry moved one unit in the last place (the
subtraction `1. - fl(1/3)` rounds on an exact tie). -/
theorem Meles.kershaw_f64_counterexample :
    Meles.kershaw_transformation_f64 1 [(0, Meles.fl_third, 0)] ≠
      [(0, Meles.fl_third, 0)] := by
  have hpt : Meles.kershaw_transform_point_f64 1 (0, Meles.fl_third, 0) =
      (0, Meles.kershaw_left_f64 1 Meles.fl_third, Meles.kershaw_left_f64 1 0) := by
    simp only [Meles.kershaw_transform_point_f64]
    rw [Meles.kershaw_layer_zero]
    rw [if_pos rfl]
  intro h
  rw [show Meles.kershaw_transformation_f64 1 [(0, Meles.fl_third, 0)] =
    [Meles.kershaw_transform_point_f64 1 (0, Meles.fl_third, 0)] from rfl, hpt] at h
  simp only [List.cons.injEq, Prod.mk.injEq, and_true, true_and] at h
  have hy : Meles.kershaw_left_f64 1 Meles.fl_third = Meles.fl_third := h.1
  rw [Meles.kershaw_left_f64_one_third] at hy
  have hne : (6004799503160660 : ℚ) * (2 : ℚ) ^ (-54 : ℤ) ≠ Meles.fl_third := by
    unfold Meles.fl_third
    rw [zpow_neg]
    norm_num
  exact hne hy
